import Mathlib

/-!
# Verification of the SVG image extractor core

Shallow embedding of the extraction-and-packaging pipeline of the
`svg-image-extractor` repository: input validators (`validators.js`),
the SVG image extractor (`svgExtractor.js`), the ZIP packager and
filename policy (`zipGenerator.js`), and the error translator
(`errorHandler.js`).

JavaScript strings are modelled as Lean `String`; absent values
(`null`/`undefined`) as `Option`; thrown errors as `Except`; the
DOM-parsing stage (the browser's `DOMParser`, an external collaborator)
is a parameter mapping the SVG text to either a parse failure or the
list of `image` elements in document order.
-/

/-! ### String primitives

The JS string operations the core uses (`includes`, `split`,
`startsWith`, `endsWith`, `trim`) are modelled by structurally
recursive functions over `String.data : List Char`, so that every
definition evaluates inside the kernel. -/

/-- `leadsWith s p`: the character list `s` starts with `p`. -/
def leadsWith : List Char → List Char → Bool
  | _, [] => true
  | [], _ :: _ => false
  | a :: as, b :: bs => a = b && leadsWith as bs

/-- `containsSeq s p`: `p` occurs as a contiguous subsequence of `s`. -/
def containsSeq (s p : List Char) : Bool :=
  match s with
  | [] => leadsWith [] p
  | _ :: rest => leadsWith s p || containsSeq rest p

/-- JS `String.prototype.includes(needle)` for a non-empty needle. -/
def jsIncludes (s needle : String) : Bool :=
  containsSeq s.data needle.data

/-- JS `String.prototype.startsWith(p)`. -/
def jsStartsWith (s p : String) : Bool :=
  leadsWith s.data p.data

/-- JS `String.prototype.endsWith(p)`. -/
def jsEndsWith (s p : String) : Bool :=
  leadsWith s.data.reverse p.data.reverse

/-- Splits a character list at every occurrence of the character `c`
(JS `split` with a one-character separator: every separator the core
uses — `';'`, `':'`, `','`, `'/'` — is one character). -/
def splitOnChar (c : Char) : List Char → List (List Char)
  | [] => [[]]
  | a :: as =>
    let r := splitOnChar c as
    if a = c then [] :: r
    else
      match r with
      | [] => [[a]]
      | h :: t => (a :: h) :: t

/-- JS `String.prototype.split(sep)` for a one-character separator. -/
def jsSplit (s : String) (sep : Char) : List String :=
  (splitOnChar sep s.data).map (fun l => ⟨l⟩)

/-- JS `String.prototype.trim()`: leading and trailing whitespace
removed. -/
def jsTrim (s : String) : List Char :=
  ((s.data.dropWhile Char.isWhitespace).reverse.dropWhile Char.isWhitespace).reverse

/-- The text after the first comma of `s` (empty when `s` has no comma).
Spec-side helper used to state the size claim. -/
def afterFirstComma (s : String) : String :=
  ⟨(s.data.dropWhile (fun c => c ≠ ',')).drop 1⟩

/-! ## Error model (`errorHandler.js`)

The repository defines three custom error classes extending `Error`
(`ValidationError`, `FetchError`, `ParseError`); generic `Error` and
`TypeError` values also flow through `handleError`.  We model the five
shapes as a closed inductive type. -/

inductive JsError where
  | validationErr (message : String) (field : Option String)
  | fetchErr (message : String) (url : Option String) (statusCode : Option Nat)
  | parseErr (message : String)
  | typeErr (message : String)
  | plain (message : String)
  deriving Repr, DecidableEq

/-- Whether an error value is a `ValidationError` (`instanceof ValidationError`). -/
def JsError.isValidationErr : JsError → Bool
  | .validationErr _ _ => true
  | _ => false

/-! ## Message constants (`constants/messages.js`, `ERROR_MESSAGES`) -/

def FETCH_FAILED : String :=
  "Failed to fetch SVG from URL. Please check the URL and try again."

def CORS_ERROR : String :=
  "Unable to fetch from URL due to CORS restrictions. The server must allow cross-origin requests."

def PARSE_ERROR : String :=
  "Failed to parse SVG content. Please ensure it is valid SVG."

def ZIP_GENERATION_FAILED : String :=
  "Failed to generate ZIP file. Please try downloading images individually."

def NETWORK_ERROR : String :=
  "Network error occurred. Please check your connection and try again."

def TIMEOUT_ERROR : String :=
  "Request timed out. Please try again."

def UNEXPECTED_ERROR : String :=
  "An unexpected error occurred. Please try again."

/-! ## `handleError` (`errorHandler.js`) -/

/-- `handleError(error)`: converts an error value to a user-facing string.
Mirrors the chain of `instanceof` checks and `String.includes` tests of
the source; `m || fallback` on a JS string is modelled as
`if m = "" then fallback else m`. -/
def handleError : JsError → String
  | .validationErr m _ => m
  | .fetchErr m _ _ =>
      if jsIncludes m "CORS" || jsIncludes m "cors" then CORS_ERROR
      else if jsIncludes m "timeout" || jsIncludes m "Timeout" then TIMEOUT_ERROR
      else if m = "" then FETCH_FAILED else m
  | .parseErr _ => PARSE_ERROR
  | .typeErr m =>
      if jsIncludes m "fetch" then NETWORK_ERROR
      else if m = "" then UNEXPECTED_ERROR else m
  | .plain m => if m = "" then UNEXPECTED_ERROR else m

/-! ## Validators (`validators.js`) -/

/-- `{valid: boolean, error: string|null}` -/
structure ValidationResult where
  valid : Bool
  error : Option String
  deriving Repr, DecidableEq

/-- `isValidSvg(content)`: empty/whitespace-only content, then a
`"<svg"` substring check. -/
def isValidSvg (content : String) : ValidationResult :=
  if (jsTrim content).length = 0 then
    { valid := false, error := some "SVG content is empty" }
  else if !(jsIncludes content "<svg") then
    { valid := false, error := some "Content does not appear to be valid SVG" }
  else
    { valid := true, error := none }

/-- A browser `File` handle as the validator sees it: `size` in bytes,
declared content `type`, and `name`. -/
structure JsFile where
  size : Nat
  type : String
  name : String
  deriving Repr, DecidableEq

/-- `isValidFile(file)`: absent handle, then the 10 MB size limit, then
MIME type / `.svg` extension. -/
def isValidFile (file : Option JsFile) : ValidationResult :=
  let maxSize : Nat := 10 * 1024 * 1024
  let validTypes : List String := ["image/svg+xml", "text/xml", "application/xml"]
  match file with
  | none => { valid := false, error := some "No file provided" }
  | some f =>
    if f.size > maxSize then
      { valid := false, error := some "File size exceeds 10MB limit" }
    else if !(validTypes.contains f.type) && !(jsEndsWith f.name ".svg") then
      { valid := false, error := some "File must be an SVG file" }
    else
      { valid := true, error := none }

/-! ## SVG image extractor (`svgExtractor.js`) -/

/-- An `<image>` element of the parsed document: the values of its
`href` and `xlink:href` attributes (`none` = attribute absent,
`getAttribute` returns `null`). -/
structure ImageElement where
  href : Option String
  xlinkHref : Option String
  deriving Repr, DecidableEq

/-- `img.getAttribute('href') || img.getAttribute('xlink:href')`:
JS `||` takes the right operand when the left is `null` or `""`. -/
def getHref (img : ImageElement) : Option String :=
  match img.href with
  | some s => if s = "" then img.xlinkHref else some s
  | none => img.xlinkHref

/-- `href && href.startsWith('data:image/')`: the element's effective
reference when it is a data-image URL, `none` when the element is
skipped. -/
def keepHref (img : ImageElement) : Option String :=
  match getHref img with
  | some h => if h ≠ "" && jsStartsWith h "data:image/" then some h else none
  | none => none

/-- One extracted image record (`ExtractedImage` in the source). -/
structure ExtractedImage where
  dataUrl : String
  format : String
  index : Nat
  size : Nat
  id : String
  deriving Repr, DecidableEq

/-- Builds the record pushed for one surviving element:
`format = href.split(';')[0].split(':')[1]`,
`size = floor(((href.split(',')[1] || '').length * 3) / 4)`,
`id = img-${Date.now()}-${index}` with `Date.now()` passed in as `now`. -/
def buildRecord (now index : Nat) (href : String) : ExtractedImage :=
  let format := (jsSplit ((jsSplit href ';').headD "") ':').getD 1 ""
  let base64Data := (jsSplit href ',').getD 1 ""
  let estimatedSize := base64Data.length * 3 / 4
  { dataUrl := href
    format := format
    index := index
    size := estimatedSize
    id := "img-" ++ toString now ++ "-" ++ toString index }

/-- The `imageElements.forEach((img, index) => ...)` loop: `index` is
the position among ALL `image` elements; a record is pushed only for
elements whose effective reference is a data-image URL. -/
def extractLoop (now : Nat) : Nat → List ImageElement → List ExtractedImage
  | _, [] => []
  | index, img :: rest =>
    match keepHref img with
    | some href => buildRecord now index href :: extractLoop now (index + 1) rest
    | none => extractLoop now (index + 1) rest

/-- Extraction over the parsed element list, starting at index 0. -/
def extractFromElements (now : Nat) (elems : List ImageElement) : List ExtractedImage :=
  extractLoop now 0 elems

/-- The parse stage (`DOMParser` + `parsererror` check +
`querySelectorAll('image')`), an external collaborator: maps the SVG
text to `none` on a structural parse error, or to the document's
`image` elements in document order. -/
def ParseFn : Type := String → Option (List ImageElement)

/-- `extractImages(svgContent)`: validation (a plain `Error` carrying
the validation's error string), then parsing (a `ParseError` on
failure), then the extraction loop. -/
def extractImages (parse : ParseFn) (now : Nat) (svgContent : String) :
    Except JsError (List ExtractedImage) :=
  let validation := isValidSvg svgContent
  if validation.valid = false then
    Except.error (JsError.plain (validation.error.getD ""))
  else
    match parse svgContent with
    | none =>
      Except.error (JsError.parseErr "Failed to parse SVG content. The SVG may be malformed.")
    | some elems => Except.ok (extractFromElements now elems)

/-- `countImages(svgContent)`: `extractImages(...).length`, any thrown
error swallowed to 0. -/
def countImages (parse : ParseFn) (now : Nat) (svgContent : String) : Nat :=
  match extractImages parse now svgContent with
  | Except.ok images => images.length
  | Except.error _ => 0

/-! ## ZIP packager and filename policy (`zipGenerator.js`) -/

/-- An image object handed to the ZIP generator: `dataUrl` is accessed
with optional chaining (`img.dataUrl?.split(...)`) and `format` with a
`||` fallback, so both may be absent. -/
structure ZipInputImage where
  dataUrl : Option String
  format : Option String
  deriving Repr, DecidableEq

/-- `generateFilename(image, index)`:
`ext = (image.format || 'image/png').split('/')[1] || 'png'`, output
`image-{index + 1}.{ext}`. -/
def generateFilename (image : ZipInputImage) (index : Nat) : String :=
  let format := match image.format with
    | some f => if f = "" then "image/png" else f
    | none => "image/png"
  let ext0 := (jsSplit format '/').getD 1 ""
  let ext := if ext0 = "" then "png" else ext0
  "image-" ++ toString (index + 1) ++ "." ++ ext

/-- The filter predicate of `generateZip`: the record's
`dataUrl?.split(',')[1]` is present and non-empty. -/
def hasPayload (img : ZipInputImage) : Bool :=
  match img.dataUrl with
  | some d => ((jsSplit d ',').getD 1 "") ≠ ""
  | none => false

/-- `img.dataUrl.split(',')[1]` for a record that passed the filter. -/
def zipPayload (img : ZipInputImage) : String :=
  match img.dataUrl with
  | some d => (jsSplit d ',').getD 1 ""
  | none => ""

/-- One `(filename, base64 content)` entry of the archive. -/
structure ZipEntry where
  filename : String
  base64Content : String
  deriving Repr, DecidableEq

deriving instance DecidableEq for Except

/-- JS `Math.round` on the (non-negative) percent values JSZip reports:
round half away from zero, i.e. `⌊q + 1/2⌋` for `q ≥ 0`. -/
def jsRound (q : ℚ) : ℤ :=
  Int.floor (q + 1 / 2)

/-- The body of the `try` block of `generateZip`: filter to records
with a payload, throw `'No valid images to include in ZIP'` when none
survive, otherwise build the entries (re-indexed 0.. in filtered
order) and run JSZip's `generateAsync`, whose metadata callbacks carry
the percent values `percents` (an input from the external archive
library). -/
def generateZipTry (images : List ZipInputImage) (callbackPresent : Bool)
    (percents : List ℚ) : Except String (List ZipEntry × List ℤ) :=
  let validImages := images.filter hasPayload
  if validImages.length = 0 then
    Except.error "No valid images to include in ZIP"
  else
    let entries := validImages.enum.map
      (fun p => { filename := generateFilename p.2 p.1, base64Content := zipPayload p.2 })
    let reports := if callbackPresent then percents.map jsRound else []
    Except.ok (entries, reports)

/-- Result of one `generateZip` call: the outcome (entries of the blob,
or the thrown error's message) and the values passed to
`progressCallback`, in order. -/
structure ZipRun where
  result : Except String (List ZipEntry)
  progressReports : List ℤ
  deriving Repr, DecidableEq

/-- `generateZip(images, progressCallback)`: the empty/absent-input
check throws before the `try`; everything else runs inside the
`try`/`catch`, whose `catch` replaces ANY thrown error with
`ERROR_MESSAGES.ZIP_GENERATION_FAILED`. -/
def generateZip (images : List ZipInputImage) (callbackPresent : Bool)
    (percents : List ℚ) : ZipRun :=
  if images.length = 0 then
    { result := Except.error "No images provided for ZIP generation", progressReports := [] }
  else
    match generateZipTry images callbackPresent percents with
    | Except.error _ =>
      { result := Except.error ZIP_GENERATION_FAILED, progressReports := [] }
    | Except.ok (entries, reports) =>
      { result := Except.ok entries, progressReports := reports }

/-! ## Fixtures: concrete parsers, documents and payloads

`ParseFn` values standing in for `DOMParser` on the concrete inputs the
witnesses and counterexamples use. -/

/-- A parser that reports a structural error on every input. -/
def parseAlwaysFails : ParseFn := fun _ => none

/-- A parser that yields a document with no `image` elements on every
input. -/
def parseEmptyDoc : ParseFn := fun _ => some []

/-- An SVG text with one external-reference `image` element followed by
one embedded (data-URL) `image` element. -/
def svgExtThenData : String :=
  "<svg><image href=\"https://example.com/image.png\"/><image href=\"data:image/png;base64,ABC123\"/></svg>"

/-- The `image` elements of `svgExtThenData`, in document order. -/
def elemsExtThenData : List ImageElement :=
  [{ href := some "https://example.com/image.png", xlinkHref := none },
   { href := some "data:image/png;base64,ABC123", xlinkHref := none }]

/-- A parser that parses `svgExtThenData` to its two `image` elements. -/
def parseExtThenData : ParseFn :=
  fun s => if s = svgExtThenData then some elemsExtThenData else none

/-- A 92-character base64 payload with one padding character: the
encoding of exactly `92 / 4 * 3 - 1 = 68` decoded bytes. -/
def payload68 : String :=
  "AAAAAAAAAAAAAAAAAAAAAAAAAAAAAAAAAAAAAAAAAAAAAAAAAAAAAAAAAAAAAAAAAAAAAAAAAAAAAAAAAAAAAAAAAAA="

/-- A data URL carrying `payload68`. -/
def dataUrl68 : String := "data:image/png;base64," ++ payload68

/-- The spec-side index trace: position (among ALL `image` elements,
counting from `i`) of every element that yields a record. -/
def keptIdx : Nat → List ImageElement → List Nat
  | _, [] => []
  | i, img :: rest =>
    match keepHref img with
    | some _ => i :: keptIdx (i + 1) rest
    | none => keptIdx (i + 1) rest

/-- The text after the first `'/'` of `s` (spec-side helper: the
claim's "text after the slash" reading of the extension). -/
def afterFirstSlash (s : String) : String :=
  ⟨(s.data.dropWhile (fun c => c ≠ '/')).drop 1⟩

/-- The claimed extension rule as amended: the segment of `format`
between the first and second `'/'` (`split('/')[1]`), with `png` as
the default when `format` is absent, empty, or that segment is
empty. -/
def extFor (format : Option String) : String :=
  let f := match format with
    | some f => if f = "" then "image/png" else f
    | none => "image/png"
  let ext0 := (jsSplit f '/').getD 1 ""
  if ext0 = "" then "png" else ext0

/-! ## Helper lemmas -/

theorem buildRecord_index (now i : Nat) (href : String) :
    (buildRecord now i href).index = i := rfl

theorem buildRecord_dataUrl (now i : Nat) (href : String) :
    (buildRecord now i href).dataUrl = href := rfl

theorem buildRecord_size (now i : Nat) (href : String) :
    (buildRecord now i href).size = ((jsSplit href ',').getD 1 "").length * 3 / 4 := rfl

theorem keptIdx_lower (l : List ImageElement) :
    ∀ i x, x ∈ keptIdx i l → i ≤ x := by
  induction l with
  | nil =>
    intro i x hx
    simp [keptIdx] at hx
  | cons img rest ih =>
    intro i x hx
    cases h : keepHref img with
    | none =>
      simp only [keptIdx, h] at hx
      exact Nat.le_of_succ_le (ih (i + 1) x hx)
    | some v =>
      simp only [keptIdx, h] at hx
      rcases List.mem_cons.mp hx with hx | hx
      · exact hx ▸ Nat.le_refl i
      · exact Nat.le_of_succ_le (ih (i + 1) x hx)

theorem keptIdx_pairwise (l : List ImageElement) :
    ∀ i, (keptIdx i l).Pairwise (fun a b => a < b) := by
  induction l with
  | nil => intro i; simp [keptIdx]
  | cons img rest ih =>
    intro i
    cases h : keepHref img with
    | none => simpa only [keptIdx, h] using ih (i + 1)
    | some v =>
      simp only [keptIdx, h, List.pairwise_cons]
      refine ⟨?_, ih (i + 1)⟩
      intro x hx
      exact Nat.lt_of_succ_le (keptIdx_lower rest (i + 1) x hx)

theorem extractLoop_map_index (now : Nat) (l : List ImageElement) :
    ∀ i, (extractLoop now i l).map (fun r => r.index) = keptIdx i l := by
  induction l with
  | nil => intro i; rfl
  | cons img rest ih =>
    intro i
    cases h : keepHref img with
    | none => simp [extractLoop, keptIdx, h, ih]
    | some v => simp [extractLoop, keptIdx, h, ih, buildRecord_index]

theorem extractLoop_length (now : Nat) (l : List ImageElement) :
    ∀ i, (extractLoop now i l).length =
      (l.filter (fun img => (keepHref img).isSome)).length := by
  induction l with
  | nil => intro i; rfl
  | cons img rest ih =>
    intro i
    cases h : keepHref img with
    | none => simp [extractLoop, h, ih, List.filter_cons]
    | some v => simp [extractLoop, h, ih, List.filter_cons]

theorem extractLoop_map_dataUrl (now : Nat) (l : List ImageElement) :
    ∀ i, (extractLoop now i l).map (fun r => r.dataUrl) = l.filterMap keepHref := by
  induction l with
  | nil => intro i; rfl
  | cons img rest ih =>
    intro i
    cases h : keepHref img with
    | none => simp [extractLoop, h, ih, List.filterMap_cons]
    | some v => simp [extractLoop, h, ih, List.filterMap_cons, buildRecord_dataUrl]

theorem extractLoop_size (now : Nat) (l : List ImageElement) :
    ∀ i r, r ∈ extractLoop now i l →
      r.size = ((jsSplit r.dataUrl ',').getD 1 "").length * 3 / 4 := by
  induction l with
  | nil =>
    intro i r hr
    simp [extractLoop] at hr
  | cons img rest ih =>
    intro i r hr
    cases h : keepHref img with
    | none =>
      simp only [extractLoop, h] at hr
      exact ih (i + 1) r hr
    | some v =>
      simp only [extractLoop, h, List.mem_cons] at hr
      rcases hr with hr | hr
      · subst hr; rfl
      · exact ih (i + 1) r hr

theorem splitOnChar_ne_nil (c : Char) (l : List Char) : splitOnChar c l ≠ [] := by
  cases l with
  | nil => simp [splitOnChar]
  | cons a as =>
    simp only [splitOnChar]
    by_cases h : a = c
    · simp [h]
    · simp only [h, if_false]
      cases splitOnChar c as <;> simp

theorem splitOnChar_headD (c : Char) (l : List Char) :
    (splitOnChar c l).headD [] = l.takeWhile (fun a => a ≠ c) := by
  induction l with
  | nil => rfl
  | cons a as ih =>
    by_cases h : a = c
    · subst h
      simp [splitOnChar, List.takeWhile_cons]
    · simp only [splitOnChar, h, if_false, List.takeWhile_cons]
      cases hs : splitOnChar c as with
      | nil => exact absurd hs (splitOnChar_ne_nil c as)
      | cons hh tt =>
        rw [hs] at ih
        simp only [List.headD_cons, ne_eq, decide_not] at ih
        simp [h, ih]

theorem getD_zero_eq_headD (l : List (List Char)) : l.getD 0 [] = l.headD [] := by
  cases l <;> rfl

theorem splitOnChar_getD_one (c : Char) (l : List Char) :
    (splitOnChar c l).getD 1 [] =
      ((l.dropWhile (fun a => a ≠ c)).drop 1).takeWhile (fun a => a ≠ c) := by
  induction l with
  | nil => rfl
  | cons a as ih =>
    by_cases h : a = c
    · subst h
      have h1 : splitOnChar a (a :: as) = [] :: splitOnChar a as := by
        simp [splitOnChar]
      have h2 : List.dropWhile (fun x => x ≠ a) (a :: as) = a :: as := by
        simp [List.dropWhile_cons]
      rw [h1, h2, List.drop_one, List.tail_cons]
      calc ([] :: splitOnChar a as).getD 1 [] = (splitOnChar a as).getD 0 [] := rfl
        _ = (splitOnChar a as).headD [] := getD_zero_eq_headD _
        _ = as.takeWhile (fun x => x ≠ a) := splitOnChar_headD a as
    · simp only [splitOnChar, h, if_false, List.dropWhile_cons]
      cases hs : splitOnChar c as with
      | nil => exact absurd hs (splitOnChar_ne_nil c as)
      | cons hh tt =>
        rw [hs] at ih
        simp only [ne_eq, h, not_false_iff, decide_True, if_true] at ih ⊢
        simpa using ih

theorem takeWhile_of_all {α : Type} (p : α → Bool) :
    ∀ l : List α, (∀ x ∈ l, p x = true) → l.takeWhile p = l := by
  intro l
  induction l with
  | nil => intro _; rfl
  | cons a as ih =>
    intro hall
    rw [List.takeWhile_cons, hall a (List.mem_cons_self a as), if_pos rfl,
      ih (fun x hx => hall x (List.mem_cons_of_mem a hx))]

theorem jsSplit_getD_one (s : String) (c : Char) :
    (jsSplit s c).getD 1 "" = ⟨(splitOnChar c s.data).getD 1 []⟩ := by
  unfold jsSplit
  cases hs : splitOnChar c s.data with
  | nil => rfl
  | cons x xs =>
    cases xs with
    | nil => rfl
    | cons y ys => rfl

theorem mk_length (l : List Char) : (⟨l⟩ : String).length = l.length := rfl

/-! ## Claim theorems -/

/-- C1 counterexample: on an SVG whose first `image` element is an
external reference and whose second is an embedded data URL,
`extractImages` returns one record (N = 1), but its `index` field is 1,
not the contiguous `0..N-1 = [0]`: the skipped external element DOES
consume an index, because the source uses the `forEach` position among
all `image` elements. -/
theorem c1_counterexample :
    extractImages parseExtThenData 0 svgExtThenData =
      Except.ok [{ dataUrl := "data:image/png;base64,ABC123", format := "image/png",
                   index := 1, size := 4, id := "img-0-1" }] ∧
    [({ dataUrl := "data:image/png;base64,ABC123", format := "image/png",
        index := 1, size := 4, id := "img-0-1" } : ExtractedImage)].map (fun r => r.index) ≠
      List.range 1 := by
  decide

/-- C1 (amended): on a validated SVG text that parses to the element
list `elems`, `extractImages` returns exactly one record per element
whose effective reference (`href`, falling back to `xlink:href`) is a
`data:image/` URL, in document order and carrying those references; the
`index` fields are each record's element's zero-based position among
ALL `image` elements (external elements consume indices), so they are
strictly increasing but not necessarily contiguous. -/
theorem c1_amended_index_contract (parse : ParseFn) (now : Nat) (s : String)
    (elems : List ImageElement)
    (hv : (isValidSvg s).valid = true) (hp : parse s = some elems) :
    extractImages parse now s = Except.ok (extractFromElements now elems) ∧
    (extractFromElements now elems).length =
      (elems.filter (fun img => (keepHref img).isSome)).length ∧
    (extractFromElements now elems).map (fun r => r.dataUrl) = elems.filterMap keepHref ∧
    (extractFromElements now elems).map (fun r => r.index) = keptIdx 0 elems ∧
    ((extractFromElements now elems).map (fun r => r.index)).Pairwise (fun a b => a < b) := by
  unfold extractFromElements
  refine ⟨?_, extractLoop_length now elems 0, extractLoop_map_dataUrl now elems 0,
    extractLoop_map_index now elems 0, ?_⟩
  · simp [extractImages, extractFromElements, hv, hp]
  · rw [extractLoop_map_index now elems 0]
    exact keptIdx_pairwise elems 0

/-- C1 witness: the amended contract instantiated on the concrete
two-element document. -/
theorem c1_witness :
    extractImages parseExtThenData 0 svgExtThenData =
      Except.ok (extractFromElements 0 elemsExtThenData) := by
  exact (c1_amended_index_contract parseExtThenData 0 svgExtThenData elemsExtThenData
    (by decide) (by decide)).1

/-- C3 counterexample: on the empty string the validation fails, but
the error `extractImages` throws is a plain `Error` (the source does
`throw new Error(validation.error)`), not a `ValidationError`. -/
theorem c3_counterexample :
    extractImages parseAlwaysFails 0 "" = Except.error (JsError.plain "SVG content is empty") ∧
    (JsError.plain "SVG content is empty").isValidationErr = false := by
  decide

/-- C3 (amended): whenever `isValidSvg` reports invalid,
`extractImages` fails — for EVERY parser, i.e. before any parsing is
attempted — with a plain `Error` (not a `ValidationError`) whose
message is exactly the validation's error string: `"SVG content is
empty"` for empty/whitespace-only input, `"Content does not appear to
be valid SVG"` otherwise. -/
theorem c3_amended_plain_error (parse : ParseFn) (now : Nat) (s : String)
    (hv : (isValidSvg s).valid = false) :
    extractImages parse now s =
      Except.error (JsError.plain ((isValidSvg s).error.getD "")) ∧
    (JsError.plain ((isValidSvg s).error.getD "")).isValidationErr = false ∧
    ((jsTrim s).length = 0 → (isValidSvg s).error = some "SVG content is empty") ∧
    ((jsTrim s).length ≠ 0 →
      (isValidSvg s).error = some "Content does not appear to be valid SVG") := by
  refine ⟨?_, rfl, ?_, ?_⟩
  · simp [extractImages, hv]
  · intro h0
    simp [isValidSvg, h0]
  · intro h1
    by_cases hincl : jsIncludes s "<svg" = true
    · exfalso
      simp [isValidSvg, h1, hincl] at hv
    · simp [isValidSvg, h1, hincl]

/-- C3 witness: the amended statement instantiated at the empty
string. -/
theorem c3_witness :
    extractImages parseAlwaysFails 0 "" =
      Except.error (JsError.plain ((isValidSvg "").error.getD "")) := by
  exact (c3_amended_plain_error parseAlwaysFails 0 "" (by decide)).1

/-- C2 evidence: on a non-empty input list whose single record has no
base64 payload after a comma, the `try` body does throw
`"No valid images to include in ZIP"`, but that throw happens inside
the `try` whose `catch` replaces every error with
`ERROR_MESSAGES.ZIP_GENERATION_FAILED`; the error `generateZip`
actually surfaces is the generic message, not the specific one the
claim (and the spec) promises. -/
theorem c2_no_valid_images_masked :
    generateZipTry [{ dataUrl := some "data:image/png", format := some "image/png" }] false [] =
      Except.error "No valid images to include in ZIP" ∧
    (generateZip [{ dataUrl := some "data:image/png", format := some "image/png" }]
        false []).result = Except.error ZIP_GENERATION_FAILED ∧
    ZIP_GENERATION_FAILED ≠ "No valid images to include in ZIP" := by
  decide

/-- C4: `handleError` is total over the modelled error values, and on
each shape returns exactly what the claim describes: a
`ValidationError`'s own message; the CORS guidance for a `FetchError`
mentioning CORS/cors (checked before timeout); the timeout guidance for
one mentioning timeout/Timeout; otherwise the `FetchError`'s message,
or the generic fetch-failure string when it is empty; the fixed parse
guidance for any `ParseError`; the network-error string for a
`TypeError` mentioning fetch; and for anything else the error's own
message, or the unexpected-error fallback when it has none. -/
theorem c4_handle_error_cases (m : String) (field url : Option String) (code : Option Nat) :
    handleError (JsError.validationErr m field) = m ∧
    ((jsIncludes m "CORS" || jsIncludes m "cors") = true →
      handleError (JsError.fetchErr m url code) = CORS_ERROR) ∧
    ((jsIncludes m "CORS" || jsIncludes m "cors") = false →
      (jsIncludes m "timeout" || jsIncludes m "Timeout") = true →
      handleError (JsError.fetchErr m url code) = TIMEOUT_ERROR) ∧
    ((jsIncludes m "CORS" || jsIncludes m "cors") = false →
      (jsIncludes m "timeout" || jsIncludes m "Timeout") = false →
      handleError (JsError.fetchErr m url code) = (if m = "" then FETCH_FAILED else m)) ∧
    handleError (JsError.parseErr m) = PARSE_ERROR ∧
    (jsIncludes m "fetch" = true → handleError (JsError.typeErr m) = NETWORK_ERROR) ∧
    (jsIncludes m "fetch" = false →
      handleError (JsError.typeErr m) = (if m = "" then UNEXPECTED_ERROR else m)) ∧
    handleError (JsError.plain m) = (if m = "" then UNEXPECTED_ERROR else m) := by
  refine ⟨rfl, ?_, ?_, ?_, rfl, ?_, ?_, rfl⟩
  · intro h
    simp [handleError, h]
  · intro hc ht
    simp [handleError, hc, ht]
  · intro hc ht
    simp [handleError, hc, ht]
  · intro h
    simp [handleError, h]
  · intro h
    simp [handleError, h]

/-- C4 witness: the CORS branch and the TypeError-mentioning-fetch
branch instantiated on concrete messages. -/
theorem c4_witness :
    handleError (JsError.fetchErr "CORS policy blocked" none none) = CORS_ERROR ∧
    handleError (JsError.typeErr "Failed to fetch") = NETWORK_ERROR := by
  constructor
  · exact (c4_handle_error_cases "CORS policy blocked" none none none).2.1 (by decide)
  · exact (c4_handle_error_cases "Failed to fetch" none none none).2.2.2.2.2.1 (by decide)

/-- C5: `countImages` returns the length of `extractImages`' output
when extraction succeeds and 0 when it fails for any reason (validation
or parse); `countImages` itself is a total function, so it never
raises. -/
theorem c5_count_matches_extract (parse : ParseFn) (now : Nat) (s : String) :
    (∀ images, extractImages parse now s = Except.ok images →
      countImages parse now s = images.length) ∧
    (∀ e, extractImages parse now s = Except.error e → countImages parse now s = 0) := by
  constructor
  · intro images h
    simp [countImages, h]
  · intro e h
    simp [countImages, h]

/-- C5 witness: a successful extraction with zero images and a
validation failure both yield a count of 0. -/
theorem c5_witness :
    countImages parseEmptyDoc 0 "<svg></svg>" = 0 ∧
    countImages parseAlwaysFails 0 "" = 0 := by
  constructor
  · have h := (c5_count_matches_extract parseEmptyDoc 0 "<svg></svg>").1 [] (by decide)
    simpa using h
  · exact (c5_count_matches_extract parseAlwaysFails 0 "").2
      (JsError.plain "SVG content is empty") (by decide)

/-- C6: `isValidFile` fails with `"No file provided"` on an absent
handle; with `"File size exceeds 10MB limit"` when the size exceeds
10,485,760 bytes; with `"File must be an SVG file"` unless the declared
content type is `image/svg+xml`, `text/xml` or `application/xml` or the
name ends in `.svg`; and succeeds otherwise. In particular an 11 MB
handle of type `image/svg+xml` fails with the size message, and a
100-byte handle named `x.svg` with empty type is valid. -/
theorem c6_is_valid_file_cases (f : JsFile) :
    isValidFile none = { valid := false, error := some "No file provided" } ∧
    (f.size > 10485760 →
      isValidFile (some f) = { valid := false, error := some "File size exceeds 10MB limit" }) ∧
    (f.size ≤ 10485760 →
      (["image/svg+xml", "text/xml", "application/xml"] : List String).contains f.type = false →
      jsEndsWith f.name ".svg" = false →
      isValidFile (some f) = { valid := false, error := some "File must be an SVG file" }) ∧
    (f.size ≤ 10485760 →
      ((["image/svg+xml", "text/xml", "application/xml"] : List String).contains f.type = true ∨
        jsEndsWith f.name ".svg" = true) →
      isValidFile (some f) = { valid := true, error := none }) ∧
    isValidFile (some { size := 11534336, type := "image/svg+xml", name := "big.svg" }) =
      { valid := false, error := some "File size exceeds 10MB limit" } ∧
    isValidFile (some { size := 100, type := "", name := "x.svg" }) =
      { valid := true, error := none } := by
  have hmax : (10 * 1024 * 1024 : Nat) = 10485760 := by norm_num
  refine ⟨rfl, ?_, ?_, ?_, by decide, by decide⟩
  · intro h
    simp [isValidFile, hmax, h]
  · intro hs ht hn
    simp at ht
    simp [isValidFile, hmax, Nat.not_lt.mpr hs, ht.1, ht.2.1, ht.2.2, hn]
  · intro hs hor
    rcases hor with ht | hn
    · simp at ht
      rcases ht with h | h | h <;> simp [isValidFile, hmax, Nat.not_lt.mpr hs, h]
    · simp [isValidFile, hmax, Nat.not_lt.mpr hs, hn]

/-- C6 witness: the size branch applied to the 11 MB handle. -/
theorem c6_witness :
    isValidFile (some { size := 11534336, type := "image/svg+xml", name := "big.svg" }) =
      { valid := false, error := some "File size exceeds 10MB limit" } := by
  exact (c6_is_valid_file_cases { size := 11534336, type := "image/svg+xml", name := "big.svg" }).2.1
    (by norm_num)

/-- C7 counterexample: for a record whose `format` is `"image/"` (a
value the extractor can produce from the data URL
`data:image/;base64,...`), the text after the `'/'` is empty, so the
claimed formula predicts `"image-1."`, but `generateFilename` falls
back to `png` (`split('/')[1] || 'png'`) and returns `"image-1.png"`. -/
theorem c7_counterexample :
    generateFilename { dataUrl := none, format := some "image/" } 0 = "image-1.png" ∧
    "image-" ++ toString (0 + 1) ++ "." ++ afterFirstSlash "image/" = "image-1." ∧
    generateFilename { dataUrl := none, format := some "image/" } 0 ≠
      "image-" ++ toString (0 + 1) ++ "." ++ afterFirstSlash "image/" := by
  decide

/-- C7 (amended): `generateFilename` is deterministic and pure and
returns `image-{i+1}.{ext}` where `ext` is the segment of the record's
`format` between the first and second `'/'`, with `png` as the default
when `format` is absent or empty or that segment is empty; in
particular the claim's three concrete examples hold. -/
theorem c7_amended_filename (image : ZipInputImage) (i : Nat) :
    generateFilename image i = "image-" ++ toString (i + 1) ++ "." ++ extFor image.format ∧
    generateFilename { dataUrl := none, format := some "image/png" } 0 = "image-1.png" ∧
    generateFilename { dataUrl := none, format := some "image/jpeg" } 5 = "image-6.jpeg" ∧
    generateFilename { dataUrl := none, format := none } 0 = "image-1.png" := by
  refine ⟨rfl, by decide, by decide, by decide⟩

/-- C8 counterexample: for an extracted record whose data URL carries a
second comma, the source computes the size from `split(',')[1]` — the
text BETWEEN the first and second comma — so the record built from
`data:image/png;base64,AA,BBBB` has `size = floor(2*3/4) = 1`, while
the claimed "length of the text after the first comma" formula predicts
`floor(7*3/4) = 5`. -/
theorem c8_counterexample :
    (extractFromElements 0
        [{ href := some "data:image/png;base64,AA,BBBB", xlinkHref := none }]).map
      (fun q => q.size) = [1] ∧
    (afterFirstComma "data:image/png;base64,AA,BBBB").length * 3 / 4 = 5 ∧
    (1 : Nat) ≠ 5 := by
  decide

/-- C8 (amended): every extracted record's `size` equals
`floor(payloadLength * 3 / 4)` where `payloadLength` is the length of
`dataUrl.split(',')[1]` — the text between the first and second comma
(the whole text after the first comma whenever that text contains no
further comma, which is always the case for genuine base64 payloads);
a record built from a 92-character base64 payload (the encoding of 68
decoded bytes) gets `size = 69`, which lies strictly between 0 and
200. -/
theorem c8_amended_size (now : Nat) (elems : List ImageElement) (r : ExtractedImage)
    (hr : r ∈ extractFromElements now elems) :
    r.size = ((jsSplit r.dataUrl ',').getD 1 "").length * 3 / 4 ∧
    ((∀ ch ∈ (afterFirstComma r.dataUrl).data, ch ≠ ',') →
      r.size = (afterFirstComma r.dataUrl).length * 3 / 4) ∧
    (extractFromElements 0 [{ href := some dataUrl68, xlinkHref := none }]).map
      (fun q => q.size) = [69] ∧
    0 < 69 ∧ (69 : Nat) < 200 := by
  have hsz := extractLoop_size now elems 0 r hr
  refine ⟨hsz, ?_, by decide, by decide, by decide⟩
  intro hnc
  rw [hsz, jsSplit_getD_one, mk_length, splitOnChar_getD_one]
  have heq : ((r.dataUrl.data.dropWhile (fun a => a ≠ ',')).drop 1).takeWhile
      (fun a => a ≠ ',') = (r.dataUrl.data.dropWhile (fun a => a ≠ ',')).drop 1 := by
    refine takeWhile_of_all _ _ ?_
    intro x hx
    simpa using hnc x hx
  rw [heq]
  rfl

/-- C8 witness: the size formula applied to the record built from a
single-element document. -/
theorem c8_witness :
    (buildRecord 0 0 "data:image/png;base64,AAAA").size =
      ((jsSplit (buildRecord 0 0 "data:image/png;base64,AAAA").dataUrl ',').getD 1 "").length
        * 3 / 4 := by
  exact (c8_amended_size 0 [{ href := some "data:image/png;base64,AAAA", xlinkHref := none }]
    (buildRecord 0 0 "data:image/png;base64,AAAA") (by decide)).1

/-- Rounding of the exact percentage 100 is 100. -/
theorem jsRound_hundred : jsRound (100 : ℚ) = 100 := by
  norm_num [jsRound]

/-- C9: on a non-empty input with at least one payload-carrying record
(so `generateZip` succeeds) and with a progress callback supplied, the
callback receives exactly `Math.round` of each percent value the
archive library emits; under the library's progress contract (at least
one metadata event, the last one at percent 100 — spec §4.3/§6, JSZip
itself is an external collaborator), the callback is called at least
once, every reported value is an integer (the reports live in `ℤ` by
construction), and the final reported value is exactly 100. -/
theorem c9_progress_contract (images : List ZipInputImage) (percents : List ℚ)
    (hne : images.length ≠ 0)
    (hvalid : (images.filter hasPayload).length ≠ 0)
    (hev : percents ≠ [])
    (hlast : percents.getLast? = some 100) :
    (generateZip images true percents).result.isOk = true ∧
    (generateZip images true percents).progressReports = percents.map jsRound ∧
    (generateZip images true percents).progressReports ≠ [] ∧
    (generateZip images true percents).progressReports.getLast? = some (100 : ℤ) := by
  have hrun : generateZip images true percents =
      { result := Except.ok ((images.filter hasPayload).enum.map
          (fun p => { filename := generateFilename p.2 p.1, base64Content := zipPayload p.2 })),
        progressReports := percents.map jsRound } := by
    simp [generateZip, generateZipTry, hne, hvalid]
  rw [hrun]
  refine ⟨rfl, rfl, ?_, ?_⟩
  · simpa using hev
  · rw [List.getLast?_map, hlast, Option.map_some']
    rw [jsRound_hundred]

/-- C9 witness: one valid record, library events at 50 and 100
percent. -/
theorem c9_witness :
    (generateZip [{ dataUrl := some "data:image/png;base64,AAAA", format := some "image/png" }]
        true [50, 100]).progressReports.getLast? = some (100 : ℤ) := by
  exact (c9_progress_contract
    [{ dataUrl := some "data:image/png;base64,AAAA", format := some "image/png" }]
    [50, 100] (by decide) (by decide) (by simp) rfl).2.2.2

/-- C10: the `||` fallback from `href` to `xlink:href` fires whenever
the `href` value is falsy — in particular when the attribute is present
but empty — so an element with `href=""` and a `data:image/` URL in
`xlink:href` yields a record built from the `xlink:href` value instead
of being skipped. -/
theorem c10_empty_href_falls_back (now : Nat) (x : String)
    (hx : jsStartsWith x "data:image/" = true) :
    keepHref { href := some "", xlinkHref := some x } = some x ∧
    extractFromElements now [{ href := some "", xlinkHref := some x }] = [buildRecord now 0 x] ∧
    (buildRecord now 0 x).dataUrl = x := by
  have hxne : x ≠ "" := by
    intro h
    rw [h] at hx
    exact absurd hx (by decide)
  have hk : keepHref { href := some "", xlinkHref := some x } = some x := by
    simp [keepHref, getHref, hx, hxne]
  refine ⟨hk, ?_, rfl⟩
  simp [extractFromElements, extractLoop, hk]

/-- C10 witness: the fallback on a concrete element. -/
theorem c10_witness :
    keepHref { href := some "", xlinkHref := some "data:image/png;base64,AB" } =
      some "data:image/png;base64,AB" := by
  exact (c10_empty_href_falls_back 0 "data:image/png;base64,AB" (by decide)).1
